import Mathlib

/-!
Verification of the ProTrack shipping-program execution and reconciliation
engine.  The definitions below are a shallow embedding of the repository's
core logic: the server-side ledger triggers from the SQL schema, the
execution-status classifier of the logistics monitor, the industrial-day
calendar, the dossier lookup with platform partitioning, and the read-side
remaining-stock projections.  All numeric database values (SQL numeric and
JS numbers holding them) are modelled as rationals, counts as integers.
-/

namespace ProTrack

/-- Execution status values produced by the monitoring view
(LogisticsMonitor, src/unnamed/part_005). -/
inductive ExecStatus where
  | PENDING
  | IN_PROGRESS
  | COMPLETED
  | OVERBOOKED
deriving DecidableEq

/-- JavaScript Math.round: round half toward positive infinity,
as used for the progress percentage in LogisticsMonitor. -/
def jsRound (q : ℚ) : ℤ := ⌊q + 1/2⌋

/-- The progress percentage of LogisticsMonitor.fetchData:
percent = Math.min(100, Math.round((actual.tons / plannedQty) * 100)). -/
def progressPercent (plannedQty actual : ℚ) : ℤ :=
  min 100 (jsRound (actual / plannedQty * 100))

/-- The status classification of LogisticsMonitor.fetchData, with the
same sequence of reassignments as the source:
let status = PENDING;
if (actual.tons > 0) status = IN_PROGRESS;
if (percent >= 98 && percent <= 100) status = COMPLETED;
if (actual.tons > plannedQty) status = OVERBOOKED. -/
def classify (plannedQty actual : ℚ) : ExecStatus :=
  let percent := progressPercent plannedQty actual
  let s0 := ExecStatus.PENDING
  let s1 := if 0 < actual then ExecStatus.IN_PROGRESS else s0
  let s2 := if 98 ≤ percent ∧ percent ≤ 100 then ExecStatus.COMPLETED else s1
  if plannedQty < actual then ExecStatus.OVERBOOKED else s2

/-- The planned-quantity substitution of LogisticsMonitor.fetchData:
plannedQty = Number(prog.planned_quantity) || 1 (a null column reads as 0,
and a zero value is replaced by 1, avoiding division by zero). -/
def normPlanned (pq : Option ℚ) : ℚ :=
  if pq.getD 0 = 0 then 1 else pq.getD 0

/-- The full classification path of the monitor: substitute the planned
quantity, then classify against the summed actual tonnage. -/
def monitorClassify (pq : Option ℚ) (actual : ℚ) : ExecStatus :=
  classify (normPlanned pq) actual

/-- Shift values allowed on production_logs
(check: shift in MORNING, AFTERNOON, NIGHT, EVENING). -/
inductive Shift where
  | MORNING
  | AFTERNOON
  | NIGHT
  | EVENING
deriving DecidableEq

/-- Category values allowed on production_logs. -/
inductive Category where
  | EXPORT
  | LOCAL
  | DEBARDAGE
deriving DecidableEq

/-- Lifecycle status stored on shipping_program
(check: status in PENDING, IN_PROGRESS, COMPLETED). -/
inductive ProgStatus where
  | PENDING
  | IN_PROGRESS
  | COMPLETED
deriving DecidableEq

/-- Platform sections: the text values BIG_BAG and 50KG. -/
inductive PlatformSection where
  | BIG_BAG
  | KG50
deriving DecidableEq

/-- One row of the shipping_program table (the fields the core logic
reads; timestamps and free-text columns not consulted by it are left
out). -/
structure ShippingProgram where
  file_number : String
  platform_section : Option PlatformSection
  planned_count : ℤ
  planned_quantity : Option ℚ
  special_instructions : Option String
  status : ProgStatus
deriving DecidableEq

/-- One row of the production_logs table (the fields the core logic
reads).  created_at is minutes since the epoch. -/
structure ProductionLog where
  id : ℕ
  created_at : ℤ
  user_id : Option ℕ
  category : Category
  shift : Shift
  platform : PlatformSection
  truck_count : ℤ
  total_tonnage : ℚ
  file_number : Option String
deriving DecidableEq

/-- The two tables the engine mutates. -/
structure DBState where
  shipping_program : List ShippingProgram
  production_logs : List ProductionLog
deriving DecidableEq

/-- Row effect of the decrease_container_count trigger: UPDATE
shipping_program SET planned_count = planned_count - NEW.truck_count
WHERE file_number = NEW.file_number (a NULL NEW.file_number matches no
row, since SQL NULL equality is never true). -/
def decreaseRow (log : ProductionLog) (p : ShippingProgram) : ShippingProgram :=
  match log.file_number with
  | none => p
  | some fn =>
      if p.file_number = fn then
        { p with planned_count := p.planned_count - log.truck_count }
      else p

/-- The decrease_container_count trigger applied to the whole table as a
single atomic server-side statement. -/
def decrease_container_count (log : ProductionLog)
    (progs : List ShippingProgram) : List ShippingProgram :=
  progs.map (decreaseRow log)

/-- Row effect of the auto_activate_program trigger: UPDATE
shipping_program SET status = IN_PROGRESS WHERE file_number =
NEW.file_number AND status = PENDING. -/
def activateRow (log : ProductionLog) (p : ShippingProgram) : ShippingProgram :=
  match log.file_number with
  | none => p
  | some fn =>
      if p.file_number = fn ∧ p.status = ProgStatus.PENDING then
        { p with status := ProgStatus.IN_PROGRESS }
      else p

/-- The auto_activate_program trigger applied to the whole table. -/
def auto_activate_program (log : ProductionLog)
    (progs : List ShippingProgram) : List ShippingProgram :=
  progs.map (activateRow log)

/-- An accepted insert into production_logs: the row is appended and both
AFTER INSERT row triggers fire (trigger_activate_program, then
update_planned_count_trigger, in the name order the database uses; the
two commute). -/
def acceptInsert (log : ProductionLog) (s : DBState) : DBState :=
  { shipping_program :=
      decrease_container_count log (auto_activate_program log s.shipping_program),
    production_logs := s.production_logs ++ [log] }

/-- A sequence of accepted inserts, in submission order. -/
def applyInserts (L : List ProductionLog) (s : DBState) : DBState :=
  L.foldl (fun s l => acceptInsert l s) s

/-- The update-by-id path of EntryForm.handleSubmit: production_logs is
updated on the matching id with the edited payload; the schema declares
no UPDATE trigger, so shipping_program is untouched. -/
def acceptUpdate (id : ℕ) (tc : ℤ) (tons : ℚ) (s : DBState) : DBState :=
  { s with production_logs := s.production_logs.map fun l =>
      if l.id = id then { l with truck_count := tc, total_tonnage := tons } else l }

/-- Reading the (unique-keyed) shipping_program row for a file number. -/
def lookupProgram (s : DBState) (fn : String) : Option ShippingProgram :=
  s.shipping_program.find? (fun p => p.file_number == fn)

/-- Combined per-row effect of one accepted insert on a program row. -/
def rowStep (log : ProductionLog) (p : ShippingProgram) : ShippingProgram :=
  decreaseRow log (activateRow log p)

/-- Per-row effect of a whole sequence of accepted inserts. -/
def rowFold (L : List ProductionLog) (p : ShippingProgram) : ShippingProgram :=
  L.foldl (fun p l => rowStep l p) p

/-- Concrete export log fixture used by the witnesses below. -/
def sampleLog (id : ℕ) (t : ℤ) (tc : ℤ) (tons : ℚ) (fn : Option String) :
    ProductionLog :=
  { id := id, created_at := t, user_id := none, category := Category.EXPORT,
    shift := Shift.MORNING, platform := PlatformSection.BIG_BAG,
    truck_count := tc, total_tonnage := tons, file_number := fn }

/-- Concrete dossier fixture used by the witnesses below. -/
def sampleProgram (fn : String) (count : ℤ) (st : ProgStatus) : ShippingProgram :=
  { file_number := fn, platform_section := some PlatformSection.BIG_BAG,
    planned_count := count, planned_quantity := some 500,
    special_instructions := none, status := st }

/-- Concrete one-dossier database fixture used by the witnesses below. -/
def sampleState (fn : String) (count : ℤ) (st : ProgStatus) : DBState :=
  { shipping_program := [sampleProgram fn count st], production_logs := [] }

/-- The calendar date (days since the epoch) of a timestamp given in
minutes since the epoch. -/
def dateOf (t : ℤ) : ℤ := t / 1440

/-- The local wall-clock hour of a timestamp in minutes (EXTRACT(HOUR)
in the view, Date.getHours in the HUD). -/
def hourOf (t : ℤ) : ℤ := t % 1440 / 60

/-- The date shift of daily_production_stats and the HUD: a timestamp
before 06:00 is moved one whole day back before its date is taken. -/
def shiftedTs (t : ℤ) : ℤ := if hourOf t < 6 then t - 1440 else t

/-- production_date of the daily_production_stats view: the date of the
shifted timestamp. -/
def production_date (t : ℤ) : ℤ := dateOf (shiftedTs t)

/-- Civil-calendar conversion of a day number since the epoch to
(year, month, day), the standard era-based algorithm; it stands for the
database's reading of YYYY-MM out of a date. -/
def civilFromDays (z0 : ℤ) : ℤ × ℤ × ℤ :=
  let z := z0 + 719468
  let era := z / 146097
  let doe := z - era * 146097
  let yoe := (doe - doe / 1460 + doe / 36524 - doe / 146096) / 365
  let y := yoe + era * 400
  let doy := doe - (365 * yoe + yoe / 4 - yoe / 100)
  let mp := (5 * doy + 2) / 153
  let d := doy - (153 * mp + 2) / 5 + 1
  let m := mp + (if mp < 10 then 3 else -9)
  (if m ≤ 2 then y + 1 else y, m, d)

/-- The (year, month) pair of a day number. -/
def yearMonthOfDay (d : ℤ) : ℤ × ℤ :=
  ((civilFromDays d).1, (civilFromDays d).2.1)

/-- production_month of the view: TO_CHAR of the shifted timestamp with
format YYYY-MM, i.e. the year-month of the shifted timestamp's date. -/
def production_month (t : ℤ) : ℤ × ℤ := yearMonthOfDay (dateOf (shiftedTs t))

/-- production_year of the view: EXTRACT(YEAR) of the shifted
timestamp. -/
def production_year (t : ℤ) : ℤ := (civilFromDays (dateOf (shiftedTs t))).1

/-- OperatorHUD.getIndustrialDayRange: step back one day when before
06:00, then take that date at 06:00 as the start and one day later as the
end. -/
def getIndustrialDayRange (now : ℤ) : ℤ × ℤ :=
  let n := if hourOf now < 6 then now - 1440 else now
  let start := dateOf n * 1440 + 360
  (start, start + 1440)

/-- The HUD per-operator query: logs of the user with
created_at >= start and created_at < end of the industrial day. -/
def hudLogsQuery (uid : ℕ) (now : ℤ) (logs : List ProductionLog) :
    List ProductionLog :=
  logs.filter fun l =>
    l.user_id == some uid &&
      decide ((getIndustrialDayRange now).1 ≤ l.created_at) &&
      decide (l.created_at < (getIndustrialDayRange now).2)

/-- The MORNING pivot column of daily_production_stats:
SUM(CASE WHEN shift = MORNING THEN total_tonnage ELSE 0 END). -/
def morning_tonnage (logs : List ProductionLog) : ℚ :=
  (logs.map fun l => if l.shift = Shift.MORNING then l.total_tonnage else 0).sum

/-- The AFTERNOON pivot column of daily_production_stats:
SUM(CASE WHEN shift IN (AFTERNOON, EVENING) THEN total_tonnage ELSE 0 END). -/
def afternoon_tonnage (logs : List ProductionLog) : ℚ :=
  (logs.map fun l =>
    if l.shift = Shift.AFTERNOON ∨ l.shift = Shift.EVENING then l.total_tonnage
    else 0).sum

/-- The NIGHT pivot column of daily_production_stats:
SUM(CASE WHEN shift = NIGHT THEN total_tonnage ELSE 0 END). -/
def night_tonnage (logs : List ProductionLog) : ℚ :=
  (logs.map fun l => if l.shift = Shift.NIGHT then l.total_tonnage else 0).sum

/-- One group of the daily view: the logs whose production date, platform
and category equal the GROUP BY key. -/
def statsGroup (d : ℤ) (plat : PlatformSection) (cat : Category)
    (logs : List ProductionLog) : List ProductionLog :=
  logs.filter fun l =>
    decide (production_date l.created_at = d) && l.platform == plat &&
      l.category == cat

/-- Caller roles (profiles.role). -/
inductive Role where
  | admin
  | operator
deriving DecidableEq

/-- Platform assignment of a profile (profiles.platform_assignment). -/
inductive PlatformAssignment where
  | BIG_BAG
  | KG50
  | BOTH
deriving DecidableEq

/-- ILIKE with no wildcard, as used by the dossier search on
file_number: case-insensitive string equality. -/
def ilikeEq (a b : String) : Bool := a.toLower == b.toLower

/-- The JS comparison actualPlatform === platformAssignment on the raw
text values (BOTH never equals an owning platform's text). -/
def assignMatches (pf : PlatformSection) (a : PlatformAssignment) : Bool :=
  match pf, a with
  | PlatformSection.BIG_BAG, PlatformAssignment.BIG_BAG => true
  | PlatformSection.KG50, PlatformAssignment.KG50 => true
  | _, _ => false

/-- The extra eq('platform_section', platformAssignment) filter the form
adds for a non-admin caller; for BOTH no filter is added. -/
def scopeFilter (a : PlatformAssignment) (p : ShippingProgram) : Bool :=
  match a with
  | PlatformAssignment.BIG_BAG => p.platform_section == some PlatformSection.BIG_BAG
  | PlatformAssignment.KG50 => p.platform_section == some PlatformSection.KG50
  | PlatformAssignment.BOTH => true

/-- The dossier search query of handleDossierLookup: ILIKE on
file_number, plus the platform filter for a non-admin caller with a
non-BOTH assignment. -/
def filteredQuery (role : Role) (assign : Option PlatformAssignment)
    (search : String) (progs : List ShippingProgram) : List ShippingProgram :=
  progs.filter fun p =>
    ilikeEq p.file_number search &&
      (match role, assign with
       | Role.admin, _ => true
       | _, none => true
       | _, some a => scopeFilter a p)

/-- The check_dossier_platform database function: SELECT platform_section
FROM shipping_program WHERE file_number = lookup_number LIMIT 1 (exact,
case-sensitive comparison). -/
def check_dossier_platform (search : String) (progs : List ShippingProgram) :
    Option PlatformSection :=
  (progs.find? fun p => p.file_number == search).bind fun p => p.platform_section

/-- Outcome of the dossier lookup as shown to the operator. -/
inductive LookupOutcome where
  | found (p : ShippingProgram)
  | accessDenied (owner : PlatformSection)
  | notFound
  | queryError
deriving DecidableEq

/-- handleDossierLookup of the entry form: run the filtered query
(maybeSingle errors when more than one row matches); on a miss, a
non-admin caller with an assignment consults check_dossier_platform and
is told the owning platform when it differs from the assignment,
otherwise the miss is a generic not-found. -/
def handleDossierLookup (role : Role) (assign : Option PlatformAssignment)
    (search : String) (progs : List ShippingProgram) : LookupOutcome :=
  match filteredQuery role assign search progs with
  | [p] => LookupOutcome.found p
  | [] =>
    match role, assign with
    | Role.admin, _ => LookupOutcome.notFound
    | _, none => LookupOutcome.notFound
    | _, some a =>
      match check_dossier_platform search progs with
      | some ap =>
          if assignMatches ap a then LookupOutcome.notFound
          else LookupOutcome.accessDenied ap
      | none => LookupOutcome.notFound
  | _ => LookupOutcome.queryError

/-- CRITICAL_THRESHOLD of components/forms/EntryForm.tsx. -/
def CRITICAL_THRESHOLD : ℤ := 5

/-- LOW_STOCK_THRESHOLD of the part_002 entry form. -/
def LOW_STOCK_THRESHOLD : ℤ := 5

/-- selectProgram's low-stock flag:
stock > 0 && stock < CRITICAL_THRESHOLD. -/
def selectProgram_isLowStock (stock : ℤ) : Bool :=
  decide (0 < stock) && decide (stock < CRITICAL_THRESHOLD)

/-- handleDossierLookup's low-stock flag:
stock > 0 && stock <= LOW_STOCK_THRESHOLD. -/
def lookup_isLowStock (stock : ℤ) : Bool :=
  decide (0 < stock) && decide (stock ≤ LOW_STOCK_THRESHOLD)

/-- finalReste of handleSubmit: currentStock !== null
? currentStock - truck_count : formData.reste_count. -/
def finalReste (currentStock : Option ℤ) (truck_count resteForm : ℤ) : ℤ :=
  match currentStock with
  | some s => s - truck_count
  | none => resteForm

/-- adjustedReste of the entry form: the live projection
currentStock - truck_count, null while no dossier is selected. -/
def adjustedReste (currentStock : Option ℤ) (truck_count : ℤ) : Option ℤ :=
  currentStock.map fun s => s - truck_count

/-- The overbooking warning banner condition:
currentStock !== null && (adjustedReste || 0) < 0. -/
def overbookingWarning (currentStock : Option ℤ) (truck_count : ℤ) : Bool :=
  currentStock.isSome &&
    decide ((adjustedReste currentStock truck_count).getD 0 < 0)

/-- One program row of the schedule view (the ProgramStatus shape of
part_008): the planned count and the cumulative and same-day loaded
totals joined in by its query. -/
structure ScheduleProgram where
  planned_count : ℤ
  total_loaded_cumulative : ℤ
  loaded_on_date : ℤ
deriving DecidableEq

/-- Per-card remaining count of the schedule view:
Math.max(0, planned_count - total_loaded_cumulative). -/
def remainingOf (p : ScheduleProgram) : ℤ :=
  max 0 (p.planned_count - p.total_loaded_cumulative)

/-- The pending-trucks header stat of the schedule view:
programs.reduce((sum, p) => sum + Math.max(0, planned_count -
total_loaded_cumulative), 0). -/
def statsPending (ps : List ScheduleProgram) : ℤ :=
  ps.foldl (fun sum p => sum + max 0 (p.planned_count - p.total_loaded_cumulative)) 0

/-- remaining_trucks of the shipping_program_dashboard view:
GREATEST(0, planned_count - COALESCE(SUM(truck_count), 0)) over the logs
joined on file_number. -/
def dashboardRemaining (sp : ShippingProgram) (logs : List ProductionLog) : ℤ :=
  max 0 (sp.planned_count -
    ((logs.filter fun l => l.file_number == some sp.file_number).map
      (fun l => l.truck_count)).sum)

lemma progressPercent_le_hundred (p a : ℚ) : progressPercent p a ≤ 100 :=
  min_le_left _ _

lemma progressPercent_zero (p : ℚ) : progressPercent p 0 = 0 := by
  simp only [progressPercent, jsRound, zero_div, zero_mul]
  norm_num

/-- Claim C3: for positive planned quantity and nonnegative actual tonnage,
the classifier returns PENDING when actual = 0; IN_PROGRESS when
0 < actual, actual is at most planned and the rounded clamped progress is
below 98; COMPLETED when that progress lies in the 98..100 band and the
dossier is not overbooked; and OVERBOOKED when actual exceeds planned,
overriding COMPLETED.  In particular planned 100 with actual 0, 97, 99 and
101 yields PENDING, IN_PROGRESS, COMPLETED and OVERBOOKED respectively. -/
theorem classify_cases (planned actual : ℚ) (hp : 0 < planned) (_ha : 0 ≤ actual) :
    (actual = 0 → classify planned actual = ExecStatus.PENDING) ∧
    (0 < actual → actual ≤ planned → progressPercent planned actual < 98 →
      classify planned actual = ExecStatus.IN_PROGRESS) ∧
    (98 ≤ progressPercent planned actual → actual ≤ planned →
      classify planned actual = ExecStatus.COMPLETED) ∧
    (planned < actual → classify planned actual = ExecStatus.OVERBOOKED) ∧
    classify 100 0 = ExecStatus.PENDING ∧
    classify 100 97 = ExecStatus.IN_PROGRESS ∧
    classify 100 99 = ExecStatus.COMPLETED ∧
    classify 100 101 = ExecStatus.OVERBOOKED := by
  refine ⟨?_, ?_, ?_, ?_, ?_, ?_, ?_, ?_⟩
  · intro h
    subst h
    have h1 : ¬ (planned < (0:ℚ)) := not_lt.2 hp.le
    simp [classify, progressPercent_zero, h1]
  · intro h0 hle hlt
    have hnlt : ¬ (planned < actual) := not_lt.2 hle
    have hnc : ¬ (98 ≤ progressPercent planned actual ∧
        progressPercent planned actual ≤ 100) :=
      fun hc => absurd hc.1 (not_le.2 hlt)
    simp only [classify]
    rw [if_neg hnlt, if_neg hnc, if_pos h0]
  · intro h98 hle
    have hnlt : ¬ (planned < actual) := not_lt.2 hle
    simp only [classify]
    rw [if_neg hnlt, if_pos ⟨h98, progressPercent_le_hundred planned actual⟩]
  · intro h
    simp only [classify]
    rw [if_pos h]
  · norm_num [classify, progressPercent, jsRound]
  · norm_num [classify, progressPercent, jsRound]
  · norm_num [classify, progressPercent, jsRound]
  · norm_num [classify, progressPercent, jsRound]

/-- Witness for C3: instantiating the classifier spec at planned 100,
actual 101 gives OVERBOOKED. -/
theorem classify_cases_witness : classify 100 101 = ExecStatus.OVERBOOKED :=
  (classify_cases 100 101 (by norm_num) (by norm_num)).2.2.2.1 (by norm_num)

/-- Counterexample for C9: with planned_quantity 0 (substituted by 1) a
positive actual tonnage of 1 is classified COMPLETED, not OVERBOOKED, so
"any positive actual tonnage is classified OVERBOOKED" fails. -/
theorem zero_planned_counterexample :
    (0:ℚ) < 1 ∧ monitorClassify (some 0) 1 = ExecStatus.COMPLETED ∧
      ExecStatus.COMPLETED ≠ ExecStatus.OVERBOOKED := by
  refine ⟨by norm_num, ?_, by decide⟩
  norm_num [monitorClassify, normPlanned, classify, progressPercent, jsRound]

/-- Claim C9 (amended): a zero or null planned_quantity is replaced by 1
before the progress ratio is computed, so the substituted divisor is never
zero; consequently a program with planned_quantity 0 and actual tonnage
exceeding 1 is classified OVERBOOKED rather than raising an error. -/
theorem zero_planned_substitution (actual : ℚ) (h : 1 < actual) :
    (∀ pq : Option ℚ, normPlanned pq ≠ 0) ∧
    normPlanned (some 0) = 1 ∧ normPlanned none = 1 ∧
    monitorClassify (some 0) actual = ExecStatus.OVERBOOKED := by
  refine ⟨?_, by norm_num [normPlanned], by norm_num [normPlanned], ?_⟩
  · intro pq
    simp only [normPlanned]
    split
    · exact one_ne_zero
    · assumption
  · have h1 : normPlanned (some 0) = 1 := by norm_num [normPlanned]
    simp only [monitorClassify, h1, classify]
    rw [if_pos h]

/-- Witness for C9 (amended): actual tonnage 2 against planned 0 is
classified OVERBOOKED. -/
theorem zero_planned_substitution_witness :
    monitorClassify (some 0) 2 = ExecStatus.OVERBOOKED :=
  (zero_planned_substitution 2 (by norm_num)).2.2.2

lemma activateRow_file_number (log : ProductionLog) (p : ShippingProgram) :
    (activateRow log p).file_number = p.file_number := by
  unfold activateRow
  cases log.file_number
  · rfl
  · dsimp only
    split <;> rfl

lemma activateRow_planned_count (log : ProductionLog) (p : ShippingProgram) :
    (activateRow log p).planned_count = p.planned_count := by
  unfold activateRow
  cases log.file_number
  · rfl
  · dsimp only
    split <;> rfl

lemma decreaseRow_file_number (log : ProductionLog) (p : ShippingProgram) :
    (decreaseRow log p).file_number = p.file_number := by
  unfold decreaseRow
  cases log.file_number
  · rfl
  · dsimp only
    split <;> rfl

lemma decreaseRow_status (log : ProductionLog) (p : ShippingProgram) :
    (decreaseRow log p).status = p.status := by
  unfold decreaseRow
  cases log.file_number
  · rfl
  · dsimp only
    split <;> rfl

lemma decreaseRow_matched (log : ProductionLog) (p : ShippingProgram) (fn : String)
    (hl : log.file_number = some fn) (hp : p.file_number = fn) :
    (decreaseRow log p).planned_count = p.planned_count - log.truck_count := by
  unfold decreaseRow
  rw [hl]
  dsimp only
  rw [if_pos hp]

lemma rowStep_file_number (log : ProductionLog) (p : ShippingProgram) :
    (rowStep log p).file_number = p.file_number := by
  unfold rowStep
  rw [decreaseRow_file_number, activateRow_file_number]

lemma rowStep_planned_count (log : ProductionLog) (p : ShippingProgram) (fn : String)
    (hl : log.file_number = some fn) (hp : p.file_number = fn) :
    (rowStep log p).planned_count = p.planned_count - log.truck_count := by
  unfold rowStep
  rw [decreaseRow_matched log _ fn hl (by rw [activateRow_file_number, hp]),
    activateRow_planned_count]

lemma rowFold_cons (l : ProductionLog) (L : List ProductionLog) (p : ShippingProgram) :
    rowFold (l :: L) p = rowFold L (rowStep l p) := rfl

lemma rowFold_file_number (L : List ProductionLog) (p : ShippingProgram) :
    (rowFold L p).file_number = p.file_number := by
  induction L generalizing p with
  | nil => rfl
  | cons l L ih => rw [rowFold_cons, ih, rowStep_file_number]

lemma rowFold_planned_count (L : List ProductionLog) (p : ShippingProgram) (fn : String)
    (hL : ∀ l ∈ L, l.file_number = some fn) (hp : p.file_number = fn) :
    (rowFold L p).planned_count =
      p.planned_count - (L.map (fun l => l.truck_count)).sum := by
  induction L generalizing p with
  | nil => simp [rowFold]
  | cons l L ih =>
    have hl : l.file_number = some fn := hL l (List.mem_cons_self l L)
    rw [rowFold_cons,
      ih (rowStep l p) (fun x hx => hL x (List.mem_cons_of_mem l hx))
        (by rw [rowStep_file_number, hp]),
      rowStep_planned_count l p fn hl hp]
    simp only [List.map_cons, List.sum_cons]
    ring

lemma applyInserts_cons (l : ProductionLog) (L : List ProductionLog) (s : DBState) :
    applyInserts (l :: L) s = applyInserts L (acceptInsert l s) := rfl

lemma applyInserts_programs (L : List ProductionLog) (s : DBState) :
    (applyInserts L s).shipping_program = s.shipping_program.map (rowFold L) := by
  induction L generalizing s with
  | nil =>
    show s.shipping_program = List.map (rowFold []) s.shipping_program
    exact (List.map_id _).symm.trans (List.map_congr_left fun p _ => rfl)
  | cons l L ih =>
    rw [applyInserts_cons, ih]
    simp only [acceptInsert, decrease_container_count, auto_activate_program,
      List.map_map]
    exact List.map_congr_left (fun p _ => rfl)

lemma lookupProgram_applyInserts (L : List ProductionLog) (s : DBState) (fn : String) :
    lookupProgram (applyInserts L s) fn = (lookupProgram s fn).map (rowFold L) := by
  unfold lookupProgram
  have hfun : ((fun p : ShippingProgram => p.file_number == fn) ∘ rowFold L) =
      (fun p : ShippingProgram => p.file_number == fn) :=
    funext fun p => by simp [Function.comp, rowFold_file_number]
  rw [applyInserts_programs, List.find?_map, hfun]

lemma lookupProgram_file_number (s : DBState) (fn : String) (p : ShippingProgram)
    (hp : lookupProgram s fn = some p) : p.file_number = fn := by
  unfold lookupProgram at hp
  have h1 := List.find?_some hp
  exact eq_of_beq h1

/-- Claim C1: starting from any state holding the dossier, any sequence of
accepted inserts carrying its file number leaves the dossier's
planned_count at its initial value minus the sum of the inserted truck
counts, and any permutation of the same inserts reaches the same
planned_count. -/
theorem ledger_fold_decrement (s : DBState) (fn : String) (p : ShippingProgram)
    (L L' : List ProductionLog)
    (hp : lookupProgram s fn = some p)
    (hL : ∀ l ∈ L, l.file_number = some fn)
    (hperm : L.Perm L') :
    (∃ q, lookupProgram (applyInserts L s) fn = some q ∧
      q.planned_count = p.planned_count - (L.map (fun l => l.truck_count)).sum) ∧
    (∃ q', lookupProgram (applyInserts L' s) fn = some q' ∧
      q'.planned_count = p.planned_count - (L.map (fun l => l.truck_count)).sum) := by
  have hpfn : p.file_number = fn := lookupProgram_file_number s fn p hp
  have hL' : ∀ l ∈ L', l.file_number = some fn :=
    fun l hl => hL l (hperm.mem_iff.mpr hl)
  have hsum : (L'.map (fun l => l.truck_count)).sum =
      (L.map (fun l => l.truck_count)).sum :=
    ((hperm.map (fun l => l.truck_count)).sum_eq).symm
  constructor
  · refine ⟨rowFold L p, ?_, ?_⟩
    · rw [lookupProgram_applyInserts, hp]
      rfl
    · exact rowFold_planned_count L p fn hL hpfn
  · refine ⟨rowFold L' p, ?_, ?_⟩
    · rw [lookupProgram_applyInserts, hp]
      rfl
    · rw [rowFold_planned_count L' p fn hL' hpfn, hsum]

/-- Witness for C1: a dossier with initial planned_count 12 receiving
accepted inserts of 5 and 4 trucks ends at remaining 3, and the swapped
submission order gives the same 3 (the spec's own example). -/
theorem ledger_fold_decrement_witness :
    ∃ q, lookupProgram
        (applyInserts [sampleLog 1 0 5 50 (some "FN"), sampleLog 2 1 4 40 (some "FN")]
          (sampleState "FN" 12 ProgStatus.PENDING)) "FN" = some q ∧
      q.planned_count = 3 := by
  obtain ⟨⟨q, hq, hc⟩, -⟩ :=
    ledger_fold_decrement (sampleState "FN" 12 ProgStatus.PENDING) "FN"
      (sampleProgram "FN" 12 ProgStatus.PENDING)
      [sampleLog 1 0 5 50 (some "FN"), sampleLog 2 1 4 40 (some "FN")]
      [sampleLog 2 1 4 40 (some "FN"), sampleLog 1 0 5 50 (some "FN")]
      rfl
      (by intro l hl
          simp only [List.mem_cons, List.not_mem_nil, or_false] at hl
          rcases hl with h | h <;> rw [h] <;> rfl)
      (List.Perm.swap _ _ _)
  refine ⟨q, hq, ?_⟩
  rw [hc]
  rfl

/-- Counterexample for C2: a dossier starts at planned_count 20, an
accepted log with truck_count 5 brings it to 15, and editing that log's
truck_count from 5 to 8 through the update-by-id path leaves it at 15,
not at the 12 that the delta rule of the claim demands. -/
theorem update_no_delta_counterexample :
    Option.map (fun p => p.planned_count)
      (lookupProgram
        (acceptUpdate 1 8 80
          (acceptInsert (sampleLog 1 0 5 50 (some "FN"))
            (sampleState "FN" 20 ProgStatus.PENDING))) "FN")
      = some 15 ∧ (15 : ℤ) ≠ 20 - 5 - 3 := by
  constructor
  · rfl
  · decide

/-- Claim C2 (amended): editing an existing log through the update-by-id
path does not adjust the ledger at all: the decrement trigger fires only
on insert, so the dossier planned_count after the edit is whatever it was
before (a delta of 0, not newLog.truck_count - oldLog.truck_count), and
retrying the same edit any number of times leaves both the ledger and the
log table as if the edit were applied once. -/
theorem acceptUpdate_ledger_invariant (s : DBState) (id : ℕ) (tc : ℤ) (tons : ℚ)
    (fn : String) :
    lookupProgram (acceptUpdate id tc tons s) fn = lookupProgram s fn ∧
    (acceptUpdate id tc tons s).shipping_program = s.shipping_program ∧
    (acceptUpdate id tc tons (acceptUpdate id tc tons s)).production_logs
      = (acceptUpdate id tc tons s).production_logs := by
  refine ⟨rfl, rfl, ?_⟩
  show ((s.production_logs.map _).map _) = s.production_logs.map _
  rw [List.map_map]
  refine List.map_congr_left (fun l _ => ?_)
  by_cases h : l.id = id
  · simp [Function.comp, h]
  · simp [Function.comp, h]

lemma lookupProgram_acceptInsert (l : ProductionLog) (s : DBState) (fn : String) :
    lookupProgram (acceptInsert l s) fn = (lookupProgram s fn).map (rowStep l) :=
  lookupProgram_applyInserts [l] s fn

lemma rowStep_status_pending (l : ProductionLog) (p : ShippingProgram) (fn : String)
    (hl : l.file_number = some fn) (hp : p.file_number = fn)
    (hs : p.status = ProgStatus.PENDING) :
    (rowStep l p).status = ProgStatus.IN_PROGRESS := by
  unfold rowStep
  rw [decreaseRow_status]
  unfold activateRow
  rw [hl]
  dsimp only
  rw [if_pos ⟨hp, hs⟩]

lemma rowStep_status_stable (l : ProductionLog) (p : ShippingProgram)
    (hs : p.status ≠ ProgStatus.PENDING) :
    (rowStep l p).status = p.status := by
  unfold rowStep
  rw [decreaseRow_status]
  unfold activateRow
  cases l.file_number
  · rfl
  · dsimp only
    rw [if_neg (fun hc => hs hc.2)]

lemma activateRow_idem (l : ProductionLog) (r : ShippingProgram) :
    activateRow l (activateRow l r) = activateRow l r := by
  unfold activateRow
  cases l.file_number with
  | none => rfl
  | some fn =>
    dsimp only
    by_cases h : r.file_number = fn ∧ r.status = ProgStatus.PENDING
    · rw [if_pos h]
      rw [if_neg]
      intro hc
      exact absurd hc.2 (by simp)
    · rw [if_neg h, if_neg h]

/-- Claim C5: an accepted insert whose file number matches a PENDING
dossier moves it to IN_PROGRESS; a dossier that is not PENDING keeps its
status unchanged (the WHERE status = PENDING guard); the per-row
activation write is idempotent; and a second concurrent first submission
leaves the dossier IN_PROGRESS. -/
theorem auto_activate_spec (s : DBState) (fn : String) (p : ShippingProgram)
    (l l2 : ProductionLog)
    (hp : lookupProgram s fn = some p)
    (hl : l.file_number = some fn) (_hl2 : l2.file_number = some fn) :
    (p.status = ProgStatus.PENDING →
      ∃ q, lookupProgram (acceptInsert l s) fn = some q ∧
        q.status = ProgStatus.IN_PROGRESS) ∧
    (p.status ≠ ProgStatus.PENDING →
      ∃ q, lookupProgram (acceptInsert l s) fn = some q ∧ q.status = p.status) ∧
    (∀ r : ShippingProgram, activateRow l (activateRow l r) = activateRow l r) ∧
    (p.status = ProgStatus.PENDING →
      ∃ q, lookupProgram (acceptInsert l2 (acceptInsert l s)) fn = some q ∧
        q.status = ProgStatus.IN_PROGRESS) := by
  have hpfn : p.file_number = fn := lookupProgram_file_number s fn p hp
  have hstep : lookupProgram (acceptInsert l s) fn = some (rowStep l p) := by
    rw [lookupProgram_acceptInsert, hp]
    rfl
  refine ⟨?_, ?_, fun r => activateRow_idem l r, ?_⟩
  · intro hs
    exact ⟨rowStep l p, hstep, rowStep_status_pending l p fn hl hpfn hs⟩
  · intro hs
    exact ⟨rowStep l p, hstep, rowStep_status_stable l p hs⟩
  · intro hs
    refine ⟨rowStep l2 (rowStep l p), ?_, ?_⟩
    · rw [lookupProgram_acceptInsert, hstep]
      rfl
    · rw [rowStep_status_stable l2 (rowStep l p)
        (by rw [rowStep_status_pending l p fn hl hpfn hs]; simp),
        rowStep_status_pending l p fn hl hpfn hs]

/-- Witness for C5: a PENDING dossier hit by two accepted inserts ends
IN_PROGRESS. -/
theorem auto_activate_spec_witness :
    ∃ q, lookupProgram
        (acceptInsert (sampleLog 2 1 4 40 (some "FN"))
          (acceptInsert (sampleLog 1 0 5 50 (some "FN"))
            (sampleState "FN" 12 ProgStatus.PENDING))) "FN" = some q ∧
      q.status = ProgStatus.IN_PROGRESS :=
  (auto_activate_spec (sampleState "FN" 12 ProgStatus.PENDING) "FN"
    (sampleProgram "FN" 12 ProgStatus.PENDING)
    (sampleLog 1 0 5 50 (some "FN")) (sampleLog 2 1 4 40 (some "FN"))
    rfl rfl rfl).2.2.2 rfl

lemma getIndustrialDayRange_eq (now : ℤ) :
    getIndustrialDayRange now =
      (production_date now * 1440 + 360, production_date now * 1440 + 360 + 1440) :=
  rfl

lemma production_date_start (now : ℤ) :
    production_date ((getIndustrialDayRange now).1) = production_date now := by
  simp only [production_date, getIndustrialDayRange, shiftedTs, dateOf, hourOf]
  split_ifs <;> omega

lemma getIndustrialDayRange_idem (now : ℤ) :
    getIndustrialDayRange ((getIndustrialDayRange now).1) = getIndustrialDayRange now := by
  conv_lhs => rw [getIndustrialDayRange_eq]
  rw [production_date_start]
  exact (getIndustrialDayRange_eq now).symm

/-- Claim C4: the industrial-day bucket puts a timestamp with local hour
below 6 on the previous calendar date and otherwise on its own date;
production month and year are read off the same shifted date (so the
00:30 timestamp of 1970-03-01 is bucketed into 1970-02, not 1970-03);
re-deriving the bucket from the bucket's own start is stable; and the
per-operator HUD counter queries exactly the half-open range from the
bucket start at 06:00 to 24 hours later. -/
theorem industrial_day_bucket_spec (t now : ℤ) (uid : ℕ)
    (logs : List ProductionLog) (l : ProductionLog) :
    (hourOf t < 6 → production_date t = dateOf t - 1) ∧
    (6 ≤ hourOf t → production_date t = dateOf t) ∧
    production_month t = yearMonthOfDay (production_date t) ∧
    production_year t = (yearMonthOfDay (production_date t)).1 ∧
    production_month 84990 = (1970, 2) ∧
    yearMonthOfDay (dateOf 84990) = (1970, 3) ∧
    getIndustrialDayRange now =
      (production_date now * 1440 + 360, production_date now * 1440 + 360 + 1440) ∧
    getIndustrialDayRange ((getIndustrialDayRange now).1) = getIndustrialDayRange now ∧
    production_date ((getIndustrialDayRange t).1) = production_date t ∧
    (l ∈ hudLogsQuery uid now logs ↔ l ∈ logs ∧ l.user_id = some uid ∧
      (getIndustrialDayRange now).1 ≤ l.created_at ∧
      l.created_at < (getIndustrialDayRange now).1 + 1440) := by
  refine ⟨?_, ?_, rfl, rfl, by decide, by decide, getIndustrialDayRange_eq now,
    getIndustrialDayRange_idem now, production_date_start t, ?_⟩
  · intro h
    simp only [production_date, shiftedTs, dateOf, hourOf] at h ⊢
    rw [if_pos h]
    omega
  · intro h
    simp only [production_date, shiftedTs, dateOf, hourOf] at h ⊢
    rw [if_neg (by omega)]
  · show l ∈ List.filter _ logs ↔ _
    rw [List.mem_filter]
    simp only [Bool.and_eq_true, decide_eq_true_eq, beq_iff_eq]
    constructor
    · rintro ⟨hmem, ⟨⟨hu, h1⟩, h2⟩⟩
      exact ⟨hmem, hu, h1, h2⟩
    · rintro ⟨hmem, hu, h1, h2⟩
      exact ⟨hmem, ⟨⟨hu, h1⟩, h2⟩⟩

/-- Witness for C4: minute 90 of the epoch (01:30) buckets to day -1,
minute 360 (06:00) buckets to day 0. -/
theorem industrial_day_bucket_spec_witness :
    production_date 90 = dateOf 90 - 1 ∧ production_date 360 = dateOf 360 :=
  ⟨(industrial_day_bucket_spec 90 90 0 [] (sampleLog 1 0 5 50 none)).1 (by decide),
   (industrial_day_bucket_spec 360 360 0 [] (sampleLog 1 0 5 50 none)).2.1 (by decide)⟩

/-- Claim C8: in the daily rollup, a log with shift EVENING adds its
tonnage to the AFTERNOON bucket of its group and nothing to the MORNING
or NIGHT buckets; MORNING and NIGHT logs feed only their own buckets; and
the insert stores the row itself unchanged, still carrying shift
EVENING. -/
theorem evening_folds_into_afternoon (s : DBState) (l : ProductionLog)
    (d : ℤ) (plat : PlatformSection) (cat : Category)
    (hs : l.shift = Shift.EVENING)
    (hd : production_date l.created_at = d)
    (hpf : l.platform = plat) (hcat : l.category = cat) :
    afternoon_tonnage (statsGroup d plat cat (s.production_logs ++ [l]))
      = afternoon_tonnage (statsGroup d plat cat s.production_logs)
        + l.total_tonnage ∧
    morning_tonnage (statsGroup d plat cat (s.production_logs ++ [l]))
      = morning_tonnage (statsGroup d plat cat s.production_logs) ∧
    night_tonnage (statsGroup d plat cat (s.production_logs ++ [l]))
      = night_tonnage (statsGroup d plat cat s.production_logs) ∧
    (acceptInsert l s).production_logs = s.production_logs ++ [l] ∧
    l ∈ (acceptInsert l s).production_logs ∧ l.shift = Shift.EVENING ∧
    (∀ m : ProductionLog, m.shift = Shift.MORNING →
      morning_tonnage [m] = m.total_tonnage ∧ afternoon_tonnage [m] = 0 ∧
        night_tonnage [m] = 0) ∧
    (∀ m : ProductionLog, m.shift = Shift.NIGHT →
      night_tonnage [m] = m.total_tonnage ∧ morning_tonnage [m] = 0 ∧
        afternoon_tonnage [m] = 0) := by
  have hfilter : statsGroup d plat cat (s.production_logs ++ [l])
      = statsGroup d plat cat s.production_logs ++ [l] := by
    unfold statsGroup
    rw [List.filter_append]
    congr 1
    simp [List.filter_cons, hd, hpf, hcat]
  refine ⟨?_, ?_, ?_, rfl, ?_, hs, ?_, ?_⟩
  · rw [hfilter]
    unfold afternoon_tonnage
    rw [List.map_append, List.sum_append]
    simp [hs]
  · rw [hfilter]
    unfold morning_tonnage
    rw [List.map_append, List.sum_append]
    simp [hs]
  · rw [hfilter]
    unfold night_tonnage
    rw [List.map_append, List.sum_append]
    simp [hs]
  · show l ∈ s.production_logs ++ [l]
    simp
  · intro m hm
    refine ⟨?_, ?_, ?_⟩ <;>
      simp [morning_tonnage, afternoon_tonnage, night_tonnage, hm]
  · intro m hm
    refine ⟨?_, ?_, ?_⟩ <;>
      simp [morning_tonnage, afternoon_tonnage, night_tonnage, hm]

/-- Witness for C8: an EVENING log lands in the AFTERNOON bucket of its
group. -/
theorem evening_folds_into_afternoon_witness :
    afternoon_tonnage (statsGroup (-1) PlatformSection.BIG_BAG Category.EXPORT
        ((sampleState "FN" 12 ProgStatus.PENDING).production_logs ++
          [{ sampleLog 1 0 5 50 (some "FN") with shift := Shift.EVENING }]))
      = afternoon_tonnage (statsGroup (-1) PlatformSection.BIG_BAG Category.EXPORT
          (sampleState "FN" 12 ProgStatus.PENDING).production_logs)
        + ({ sampleLog 1 0 5 50 (some "FN") with shift := Shift.EVENING }).total_tonnage :=
  (evening_folds_into_afternoon (sampleState "FN" 12 ProgStatus.PENDING)
    { sampleLog 1 0 5 50 (some "FN") with shift := Shift.EVENING }
    (-1) PlatformSection.BIG_BAG Category.EXPORT
    rfl (by decide) rfl rfl).1

/-- Claim C6: when a non-admin caller with a non-BOTH assignment searches
a term matching nothing inside the platform scope, while the unfiltered
check finds the dossier and its platform section differs from the
assignment, the lookup answers with the cross-platform access-denied
outcome naming the owning platform, not a generic not-found. -/
theorem cross_platform_denied (progs : List ShippingProgram) (search : String)
    (a : PlatformAssignment) (p : ShippingProgram) (pf : PlatformSection)
    (_ha : a ≠ PlatformAssignment.BOTH)
    (hscope : ∀ q ∈ progs,
      ¬(ilikeEq q.file_number search = true ∧ scopeFilter a q = true))
    (hfind : progs.find? (fun q => q.file_number == search) = some p)
    (hpf : p.platform_section = some pf)
    (hdiff : assignMatches pf a = false) :
    handleDossierLookup Role.operator (some a) search progs
      = LookupOutcome.accessDenied pf := by
  have hfq : filteredQuery Role.operator (some a) search progs = [] := by
    unfold filteredQuery
    rw [List.filter_eq_nil_iff]
    intro q hq hq2
    rw [Bool.and_eq_true] at hq2
    exact hscope q hq ⟨hq2.1, hq2.2⟩
  have hcheck : check_dossier_platform search progs = some pf := by
    unfold check_dossier_platform
    rw [hfind, Option.some_bind]
    exact hpf
  unfold handleDossierLookup
  rw [hfq]
  dsimp only
  rw [hcheck]
  dsimp only
  rw [if_neg]
  rw [hdiff]
  exact Bool.false_ne_true

/-- Witness for C6: a caller assigned 50KG searching a BIG_BAG dossier
by its exact file number is denied with BIG_BAG named. -/
theorem cross_platform_denied_witness :
    handleDossierLookup Role.operator (some PlatformAssignment.KG50) "DOS1"
        [sampleProgram "DOS1" 10 ProgStatus.PENDING]
      = LookupOutcome.accessDenied PlatformSection.BIG_BAG :=
  cross_platform_denied [sampleProgram "DOS1" 10 ProgStatus.PENDING] "DOS1"
    PlatformAssignment.KG50 (sampleProgram "DOS1" 10 ProgStatus.PENDING)
    PlatformSection.BIG_BAG
    (by decide)
    (by intro q hq hq2
        simp only [List.mem_cons, List.not_mem_nil, or_false] at hq
        subst hq
        exact absurd hq2.2 (by decide))
    rfl rfl rfl

/-- Counterexample for C7: the dossier-lookup path flags a stock of
exactly 5 as low stock, although 5 < CRITICAL_THRESHOLD (= 5) fails, so
"exactly the dossiers with 0 < stock < CRITICAL_THRESHOLD" is wrong for
that path. -/
theorem low_stock_threshold_counterexample :
    lookup_isLowStock 5 = true ∧
      ¬(0 < (5:ℤ) ∧ (5:ℤ) < CRITICAL_THRESHOLD) := by
  constructor
  · decide
  · decide

/-- Claim C7 (amended): the projected remaining stock equals
stock - pendingTruckCount and may go negative; the program-selection path
flags low stock exactly when 0 < stock < CRITICAL_THRESHOLD (5, strict),
while the dossier-lookup path flags exactly when 0 < stock ≤ 5; and a
projection below 0 raises the overbooking warning. -/
theorem stock_projection_spec (stock tc reste cs : ℤ) :
    finalReste (some stock) tc reste = stock - tc ∧
    adjustedReste (some stock) tc = some (stock - tc) ∧
    finalReste (some 3) 5 0 < 0 ∧
    (selectProgram_isLowStock stock = true ↔
      0 < stock ∧ stock < CRITICAL_THRESHOLD) ∧
    (lookup_isLowStock stock = true ↔ 0 < stock ∧ stock ≤ LOW_STOCK_THRESHOLD) ∧
    (overbookingWarning (some cs) tc = true ↔ cs - tc < 0) ∧
    overbookingWarning none tc = false := by
  refine ⟨rfl, rfl, by decide, ?_, ?_, ?_, rfl⟩
  · simp [selectProgram_isLowStock]
  · simp [lookup_isLowStock]
  · simp [overbookingWarning, adjustedReste]

lemma foldl_add_max_eq (l : List ScheduleProgram) (a : ℤ) :
    l.foldl (fun sum p => sum +
      max 0 (p.planned_count - p.total_loaded_cumulative)) a
      = a + (l.map remainingOf).sum := by
  induction l generalizing a with
  | nil => simp
  | cons p l ih =>
    rw [List.foldl_cons, ih, List.map_cons, List.sum_cons]
    show a + remainingOf p + _ = _
    ring

/-- Claim C10: every read-side remaining projection clamps at zero: the
per-card remaining and the pending-trucks summary of the schedule view
and the remaining_trucks column of the dashboard view all take the
maximum with 0, so none of them is ever negative, whatever the stored
(possibly negative) ledger value is. -/
theorem remaining_clamped_nonneg :
    (∀ p : ScheduleProgram, 0 ≤ remainingOf p ∧
      remainingOf p = max 0 (p.planned_count - p.total_loaded_cumulative)) ∧
    (∀ ps : List ScheduleProgram, 0 ≤ statsPending ps ∧
      statsPending ps = (ps.map remainingOf).sum) ∧
    (∀ (sp : ShippingProgram) (logs : List ProductionLog),
      0 ≤ dashboardRemaining sp logs) ∧
    0 ≤ remainingOf (ScheduleProgram.mk (-7) 3 0) := by
  have hfold : ∀ ps : List ScheduleProgram,
      statsPending ps = (ps.map remainingOf).sum := by
    intro ps
    unfold statsPending
    rw [foldl_add_max_eq]
    ring
  refine ⟨fun p => ⟨le_max_left 0 _, rfl⟩, fun ps => ⟨?_, hfold ps⟩,
    fun sp logs => le_max_left 0 _, ?_⟩
  · rw [hfold]
    refine List.sum_nonneg ?_
    intro x hx
    obtain ⟨p, -, rfl⟩ := List.mem_map.mp hx
    exact le_max_left 0 _
  · exact le_max_left 0 _

end ProTrack
